import Mathlib

/-!
Verification of the openbikefit motion-analysis core.

The development shallowly embeds the three components of the repository:
the angle geometry (`angles.js`), the cycle segmentation engine
(`cadence.js`, class `CadenceDetector`), and the session analyzer
(`analysis.js`: `trimCycles`, `analyzeSession`).  JavaScript numbers are
modelled as rationals (all arithmetic used by the analysed code is
`+ - * /`, comparisons, `Math.abs`, `Math.round`, `Math.max/min`), except
for the transcendental angle computations (`Math.atan2`, `Math.sqrt`)
which are modelled over the reals.  Timestamps are rationals in
milliseconds.  JavaScript arrays are lists, with `push` appending at the
end and `shift` dropping at the front.
-/

namespace OpenBikeFit

section

attribute [local semireducible] Rat.sub Rat.add Rat.mul Rat.inv

/-- Sum of a list of rationals, as `reduce((s, v) => s + v, 0)`. -/
def sumQ (l : List ℚ) : ℚ := l.foldl (· + ·) 0

/-- `Math.max(...l)` for a non-empty list (`0` in the unused empty case). -/
def listMax : List ℚ → ℚ
  | [] => 0
  | h :: t => t.foldl max h

/-- `Math.min(...l)` for a non-empty list (`0` in the unused empty case). -/
def listMin : List ℚ → ℚ
  | [] => 0
  | h :: t => t.foldl min h

/-- Arithmetic mean `sum / length` of a list of rationals. -/
def qAvg (l : List ℚ) : ℚ := sumQ l / l.length

/-- `Math.round`: rounds to the nearest integer, halves toward plus
infinity (`Math.round x = Math.floor (x + 0.5)`). -/
def jsRound (q : ℚ) : ℤ := ⌊q + 1/2⌋

/-- A per-frame angle snapshot `{knee, hip, torso, elbow}` in degrees. -/
structure AngleSet where
  knee : ℚ
  hip : ℚ
  torso : ℚ
  elbow : ℚ
  deriving DecidableEq

/-- One emitted cycle summary.  The source object is
`{cycleNumber, timestamp, rpm, angles: {knee: {max}, hip: {min},
torso: {avg}, elbow: {avg}}}`; the singleton angle records are
flattened into the four fields `kneeMax`, `hipMin`, `torsoAvg`,
`elbowAvg`. -/
structure CycleSummary where
  cycleNumber : ℕ
  timestamp : ℚ
  rpm : ℤ
  kneeMax : ℚ
  hipMin : ℚ
  torsoAvg : ℚ
  elbowAvg : ℚ
  deriving DecidableEq

/-- Timestamp of the first entry (`cycleData[0].timestamp`). -/
def firstTimestamp (l : List CycleSummary) : ℚ :=
  ((l.head?).map CycleSummary.timestamp).getD 0

/-- Timestamp of the last entry (`cycleData[cycleData.length - 1].timestamp`). -/
def lastTimestamp (l : List CycleSummary) : ℚ :=
  ((l.getLast?).map CycleSummary.timestamp).getD 0

/-- `trimCycles` from `analysis.js`: drop every cycle whose timestamp lies
in the final 5000 ms of the session span; lists of at most one entry or
spanning at most 5000 ms are returned unchanged (`TRIM_END_MS = 5000`). -/
def trimCycles (cycleData : List CycleSummary) : List CycleSummary :=
  if cycleData.length ≤ 1 then cycleData
  else
    let lastTime := lastTimestamp cycleData
    let firstTime := firstTimestamp cycleData
    if lastTime - firstTime ≤ 5000 then cycleData
    else cycleData.filter (fun c => c.timestamp ≤ lastTime - 5000)

/-- A degenerate summary used to build concrete test lists: all angle data
zero, only the timestamp varies. -/
def tsOnly (t : ℚ) : CycleSummary :=
  { cycleNumber := 0, timestamp := t, rpm := 0,
    kneeMax := 0, hipMin := 0, torsoAvg := 0, elbowAvg := 0 }

lemma trimCycles_fix (l : List CycleSummary)
    (h : l.length ≤ 1 ∨ lastTimestamp l - firstTimestamp l ≤ 5000) :
    trimCycles l = l := by
  unfold trimCycles
  rcases h with h | h
  · simp [h]
  · by_cases h1 : l.length ≤ 1 <;> simp [h1, h]

/-- C1, counterexample: `trimCycles` is not idempotent.  On the
timestamp-ordered list with timestamps `0, 6000, 12000` the first
application keeps the cycles at `0` and `6000` (span `12000 > 5000`,
cutoff `7000`), and the second application, seeing a span of
`6000 > 5000`, further drops the cycle at `6000`. -/
theorem trimCycles_not_idempotent :
    trimCycles (trimCycles [tsOnly 0, tsOnly 6000, tsOnly 12000]) ≠
      trimCycles [tsOnly 0, tsOnly 6000, tsOnly 12000] := by
  decide

/-- C1, amended: `trimCycles` is idempotent on a timestamp-ordered list
whenever the once-trimmed list has at most one entry or spans at most
5000 ms; in general a second application can drop further cycles. -/
theorem trimCycles_idempotent_of_short_trim (xs : List CycleSummary)
    (h : (trimCycles xs).length ≤ 1 ∨
      lastTimestamp (trimCycles xs) - firstTimestamp (trimCycles xs) ≤ 5000) :
    trimCycles (trimCycles xs) = trimCycles xs :=
  trimCycles_fix _ h

/-- C1, witness for the amended statement at a concrete input. -/
theorem trimCycles_idempotent_of_short_trim_witness :
    ((trimCycles [tsOnly 0, tsOnly 3000]).length ≤ 1 ∨
      lastTimestamp (trimCycles [tsOnly 0, tsOnly 3000]) -
        firstTimestamp (trimCycles [tsOnly 0, tsOnly 3000]) ≤ 5000) ∧
    trimCycles (trimCycles [tsOnly 0, tsOnly 3000]) =
      trimCycles [tsOnly 0, tsOnly 3000] :=
  ⟨by decide, trimCycles_idempotent_of_short_trim [tsOnly 0, tsOnly 3000] (by decide)⟩

/-- C9: on a timestamp-ordered list, `trimCycles` is the identity when the
list has at most one entry or spans at most 5000 ms, and otherwise keeps
exactly the summaries whose timestamp is at most `last - 5000` — i.e. it
drops precisely the cycles whose timestamp falls within the last 5000 ms
of the span, deciding by timestamp, not by index or count. -/
theorem trimCycles_spec (xs : List CycleSummary)
    (hord : List.Pairwise (fun a b => a.timestamp ≤ b.timestamp) xs) :
    ((xs.length ≤ 1 ∨ lastTimestamp xs - firstTimestamp xs ≤ 5000) →
      trimCycles xs = xs) ∧
    (1 < xs.length → 5000 < lastTimestamp xs - firstTimestamp xs →
      trimCycles xs = xs.filter (fun c => c.timestamp ≤ lastTimestamp xs - 5000)) := by
  clear hord
  refine ⟨trimCycles_fix xs, fun h1 h2 => ?_⟩
  unfold trimCycles
  rw [if_neg (by omega), if_neg (by simpa using not_le_of_lt h2)]

/-- C9, witness: a concrete ordered list spanning more than 5000 ms is
trimmed to exactly its entries outside the trailing 5000 ms window, and a
concrete short list is returned unchanged. -/
theorem trimCycles_spec_witness :
    List.Pairwise (fun a b => a.timestamp ≤ b.timestamp)
      [tsOnly 0, tsOnly 2000, tsOnly 9000] ∧
    trimCycles [tsOnly 0, tsOnly 2000, tsOnly 9000] =
      [tsOnly 0, tsOnly 2000, tsOnly 9000].filter
        (fun c => c.timestamp ≤ lastTimestamp [tsOnly 0, tsOnly 2000, tsOnly 9000] - 5000) :=
  ⟨by decide,
    (trimCycles_spec [tsOnly 0, tsOnly 2000, tsOnly 9000] (by decide)).2
      (by decide) (by decide)⟩

/-- Per-angle configuration from the `THRESHOLDS` table of `analysis.js`. -/
structure Threshold where
  name : String
  category : String
  min : ℚ
  max : ℚ
  lowSuggestion : String
  highSuggestion : String
  goodSuggestion : String
  deriving DecidableEq

/-- Classification tier of an analyzed angle channel. -/
inductive Status where
  | green
  | yellow
  | red
  deriving DecidableEq

/-- The `knee` entry of `THRESHOLDS`. -/
def kneeThreshold : Threshold :=
  { name := "Knee (at BDC)", category := "Injury risk", min := 135, max := 150,
    lowSuggestion := "Your knee is bending too much under load at the bottom of the pedal stroke. This places excessive stress on the patellar tendon and can lead to anterior knee pain over time. Raise your saddle in small increments (5 mm at a time) until this angle increases into the target range.",
    highSuggestion := "Your leg is overextending at the bottom of the pedal stroke. This can strain the hamstrings and IT band, and may cause your hips to rock side to side to reach the pedals. Lower your saddle in small increments (5 mm at a time) until this angle decreases into the target range.",
    goodSuggestion := "Knee extension is in a healthy range. Your saddle height is well-set — no changes needed." }

/-- The `hip` entry of `THRESHOLDS`. -/
def hipThreshold : Threshold :=
  { name := "Hip (at TDC)", category := "Injury risk", min := 60, max := 80,
    lowSuggestion := "Your hip is closing too tightly at the top of the pedal stroke. Over time, this can lead to hip impingement, lower-back pain, and restricted breathing. Consider raising your handlebars, using a shorter stem, or moving the saddle back slightly to open up this angle.",
    highSuggestion := "Your hip angle is unusually open at the top of the stroke, which may indicate the saddle is too far back or too low relative to the handlebars. Check your saddle fore/aft position — you may need to slide it forward slightly.",
    goodSuggestion := "Hip closure is in a comfortable, sustainable range. No risk of impingement or back strain from this angle." }

/-- The `torso` entry of `THRESHOLDS`. -/
def torsoThreshold : Threshold :=
  { name := "Torso", category := "Mixed", min := 30, max := 55,
    lowSuggestion := "Your riding position is quite aggressive. While aerodynamically efficient, this degree of forward lean can cause lower-back strain, neck pain, and shoulder tension on longer rides. If you experience any discomfort, consider raising your handlebars or using a shorter stem. If you\x27re comfortable, this is a performance-oriented position and may not need adjustment.",
    highSuggestion := "Your torso is relatively upright. This is a comfortable position but comes with an aerodynamic penalty. If you\x27re looking to improve speed, consider lowering handlebars or extending the stem for a more aero profile. If comfort is your priority, there\x27s no issue staying here.",
    goodSuggestion := "Torso angle is in a good range — a solid balance between aerodynamic efficiency and comfort." }

/-- The `elbow` entry of `THRESHOLDS`. -/
def elbowThreshold : Threshold :=
  { name := "Elbow", category := "Comfort", min := 145, max := 170,
    lowSuggestion := "Your arms are quite bent, which can lead to forearm fatigue and wrist pressure on longer rides. This usually means the handlebars are too close. Consider a longer stem, or slide your saddle back slightly. That said, this is a comfort concern — if it feels fine, it\x27s not harmful.",
    highSuggestion := "Your arms are nearly locked out, which transmits road vibration directly into your shoulders and neck. A slight elbow bend acts as a natural shock absorber. Consider a shorter stem or sliding the saddle forward slightly. This is a comfort concern — not an injury risk, but you\x27ll likely feel better with a bit more bend.",
    goodSuggestion := "Elbow bend is in a comfortable range — enough to absorb road vibration without causing arm fatigue." }

/-- `Object.entries(THRESHOLDS)` in insertion order. -/
def THRESHOLDS : List (String × Threshold) :=
  [("knee", kneeThreshold), ("hip", hipThreshold),
   ("torso", torsoThreshold), ("elbow", elbowThreshold)]

/-- The per-cycle representative value of a channel, as built by
`angleValues` in `analyzeSession`: knee uses the cycle maximum, hip the
cycle minimum, torso and elbow the cycle averages. -/
def channelValue (key : String) (c : CycleSummary) : ℚ :=
  if key = "knee" then c.kneeMax
  else if key = "hip" then c.hipMin
  else if key = "torso" then c.torsoAvg
  else c.elbowAvg

/-- The status/suggestion branch of `analyzeSession` for one channel:
`diff` is the distance of the session mean to the violated bound, and the
status is red when that distance exceeds 10 degrees, yellow otherwise,
green inside the range. -/
def classify (th : Threshold) (avg : ℚ) : Status × String :=
  let diff : ℚ :=
    if avg < th.min then th.min - avg
    else if th.max < avg then avg - th.max
    else 0
  if avg < th.min then (if 10 < diff then Status.red else Status.yellow, th.lowSuggestion)
  else if th.max < avg then (if 10 < diff then Status.red else Status.yellow, th.highSuggestion)
  else (Status.green, th.goodSuggestion)

/-- `Math.round(q * 10) / 10`: round to one decimal place. -/
def round1 (q : ℚ) : ℚ := (jsRound (q * 10) : ℚ) / 10

/-- One element of the list returned by `analyzeSession`.  The `std`
field carries the reported standard deviation and therefore lives in the
reals (the source computes it with the floating-point `Math.sqrt`); it is
display-only and no classification logic reads it. -/
structure AnalysisResult where
  key : String
  name : String
  category : String
  avg : ℚ
  min : ℚ
  max : ℚ
  std : ℝ
  targetMin : ℚ
  targetMax : ℚ
  status : Status
  suggestion : String

/-- The loop body of `analyzeSession` for one `[key, threshold]` entry and
its channel values. -/
noncomputable def mkAnalysis (key : String) (th : Threshold) (values : List ℚ) :
    AnalysisResult :=
  let avg := qAvg values
  let variance := sumQ (values.map (fun v => (v - avg) ^ 2)) / values.length
  { key := key, name := th.name, category := th.category,
    avg := round1 avg, min := round1 (listMin values), max := round1 (listMax values),
    std := ((⌊Real.sqrt (variance : ℝ) * 10 + 1 / 2⌋ : ℤ) : ℝ) / 10,
    targetMin := th.min, targetMax := th.max,
    status := (classify th avg).1, suggestion := (classify th avg).2 }

/-- `analyzeSession` from `analysis.js`: empty input yields the empty
list, otherwise one `AnalysisResult` per entry of `THRESHOLDS`. -/
noncomputable def analyzeSession (cycleData : List CycleSummary) : List AnalysisResult :=
  if cycleData.length = 0 then []
  else THRESHOLDS.map (fun kt => mkAnalysis kt.1 kt.2 (cycleData.map (channelValue kt.1)))

lemma classify_low (th : Threshold) (m : ℚ) (h : m < th.min) :
    classify th m =
      (if 10 < th.min - m then Status.red else Status.yellow, th.lowSuggestion) := by
  unfold classify
  simp [h]

lemma classify_high (th : Threshold) (m : ℚ) (h1 : ¬ m < th.min) (h : th.max < m) :
    classify th m =
      (if 10 < m - th.max then Status.red else Status.yellow, th.highSuggestion) := by
  unfold classify
  simp [h1, h]

lemma classify_in (th : Threshold) (m : ℚ) (h1 : ¬ m < th.min) (h2 : ¬ th.max < m) :
    classify th m = (Status.green, th.goodSuggestion) := by
  unfold classify
  simp [h1, h2]

/-- C6: for every channel threshold (a target range, so
`targetMin ≤ targetMax`) and session mean `m`, the reported status is
green exactly when `m` lies within `[targetMin, targetMax]` (with the
good text); below `targetMin` the status is red when the deficit exceeds
10 degrees and yellow otherwise, with the low text; symmetrically above
`targetMax` with the high text.  In particular a mean 12 degrees below
`targetMin` is red and one 8 degrees below is yellow, and
`analyzeSession` reports exactly these classifications of the channel
means. -/
theorem classification_spec :
    (∀ (th : Threshold) (m : ℚ), th.min ≤ th.max →
      ((classify th m).1 = Status.green ↔ th.min ≤ m ∧ m ≤ th.max) ∧
      (m < th.min →
        classify th m =
          (if 10 < th.min - m then Status.red else Status.yellow, th.lowSuggestion)) ∧
      (th.max < m →
        classify th m =
          (if 10 < m - th.max then Status.red else Status.yellow, th.highSuggestion)) ∧
      (th.min ≤ m ∧ m ≤ th.max → classify th m = (Status.green, th.goodSuggestion)) ∧
      (classify th (th.min - 12)).1 = Status.red ∧
      (classify th (th.min - 8)).1 = Status.yellow) ∧
    (∀ cycleData : List CycleSummary, cycleData ≠ [] →
      (analyzeSession cycleData).map (fun r => (r.status, r.suggestion)) =
        THRESHOLDS.map (fun kt =>
          classify kt.2 (qAvg (cycleData.map (channelValue kt.1))))) := by
  constructor
  · intro th m hrange
    refine ⟨?_, classify_low th m, ?_, ?_, ?_, ?_⟩
    · by_cases h1 : m < th.min
      · rw [classify_low th m h1]
        constructor
        · intro hg
          exfalso
          revert hg
          split_ifs <;> simp
        · rintro ⟨ha, _⟩
          exact absurd h1 (not_lt.mpr ha)
      · by_cases h2 : th.max < m
        · rw [classify_high th m h1 h2]
          constructor
          · intro hg
            exfalso
            revert hg
            split_ifs <;> simp
          · rintro ⟨_, hb⟩
            exact absurd h2 (not_lt.mpr hb)
        · rw [classify_in th m h1 h2]
          simp [not_lt.mp h1, not_lt.mp h2]
    · intro h
      exact classify_high th m (not_lt.mpr (le_of_lt (lt_of_le_of_lt hrange h))) h
    · rintro ⟨ha, hb⟩
      exact classify_in th m (not_lt.mpr ha) (not_lt.mpr hb)
    · rw [classify_low th _ (by linarith)]
      have h12 : th.min - (th.min - 12) = 12 := by ring
      rw [h12]
      norm_num
    · rw [classify_low th _ (by linarith)]
      have h8 : th.min - (th.min - 8) = 8 := by ring
      rw [h8]
      norm_num
  · intro cycleData hne
    unfold analyzeSession
    rw [if_neg (by simpa using hne)]
    rw [List.map_map]
    refine List.map_congr_left fun kt _ => ?_
    simp [mkAnalysis]

/-- C6, witness: the knee channel at a session mean of 120 degrees (15
below the 135 degree target minimum) is classified red with the knee low
text, and `analyzeSession` of a concrete one-cycle session reports the
four channel classifications. -/
theorem classification_spec_witness :
    (kneeThreshold.min ≤ kneeThreshold.max ∧ (120 : ℚ) < kneeThreshold.min ∧
      classify kneeThreshold 120 =
        (if 10 < kneeThreshold.min - 120 then Status.red else Status.yellow,
          kneeThreshold.lowSuggestion)) ∧
    ([tsOnly 0] ≠ ([] : List CycleSummary) ∧
      (analyzeSession [tsOnly 0]).map (fun r => (r.status, r.suggestion)) =
        THRESHOLDS.map (fun kt =>
          classify kt.2 (qAvg ([tsOnly 0].map (channelValue kt.1))))) :=
  ⟨⟨by norm_num [kneeThreshold], by norm_num [kneeThreshold],
    (classification_spec.1 kneeThreshold 120 (by norm_num [kneeThreshold])).2.1
      (by norm_num [kneeThreshold])⟩,
   ⟨by simp, classification_spec.2 [tsOnly 0] (by simp)⟩⟩

/-- C7: `analyzeSession` of a session with zero cycles yields no
per-angle result, and the empty outcome is a distinct no-data signal: it
occurs exactly for empty input, since any non-empty session always
produces the full list of four per-angle results (never an empty
success). -/
theorem analyzeSession_no_data :
    analyzeSession [] = [] ∧
    (∀ cycleData : List CycleSummary, analyzeSession cycleData = [] ↔ cycleData = []) ∧
    (∀ cycleData : List CycleSummary, cycleData ≠ [] →
      (analyzeSession cycleData).length = 4) := by
  refine ⟨by simp [analyzeSession], fun cycleData => ?_, fun cycleData hne => ?_⟩
  · unfold analyzeSession
    by_cases h : cycleData.length = 0
    · simp [h, List.length_eq_zero.mp h]
    · rw [if_neg h]
      constructor
      · intro hmap
        exfalso
        simpa [THRESHOLDS] using congrArg List.length hmap
      · intro hc
        exact absurd (by simp [hc]) h
  · unfold analyzeSession
    rw [if_neg (by simpa using hne)]
    simp [THRESHOLDS]

/-- C7, witness: a concrete non-empty session yields exactly four
per-angle results. -/
theorem analyzeSession_no_data_witness :
    [tsOnly 0] ≠ ([] : List CycleSummary) ∧ (analyzeSession [tsOnly 0]).length = 4 :=
  ⟨by simp, analyzeSession_no_data.2.2 [tsOnly 0] (by simp)⟩

/-- A MediaPipe landmark `{x, y, visibility?}`: normalized coordinates
with an optional visibility confidence. -/
structure RawLandmark where
  x : ℚ
  y : ℚ
  visibility : Option ℚ
  deriving DecidableEq

/-- A 2D point after aspect-ratio correction. -/
structure Point2 where
  x : ℚ
  y : ℚ
  deriving DecidableEq

/-- Which body half to read. -/
inductive Side where
  | left
  | right
  deriving DecidableEq

/-- The six landmark indices of one side. -/
structure SideIdx where
  shoulder : ℕ
  elbow : ℕ
  wrist : ℕ
  hip : ℕ
  knee : ℕ
  ankle : ℕ

/-- The `SIDE_LANDMARKS` table of `angles.js`. -/
def SIDE_LANDMARKS : Side → SideIdx
  | Side.left => ⟨11, 13, 15, 23, 25, 27⟩
  | Side.right => ⟨12, 14, 16, 24, 26, 28⟩

/-- `allLandmarks[idx]`: out-of-range access yields `undefined` (`none`),
and a hole in the array is itself `none`. -/
def lookupLm (all : List (Option RawLandmark)) (i : ℕ) : Option RawLandmark :=
  all.getD i none

/-- The per-landmark guard of `getLandmarks`: `undefined` landmarks and
landmarks whose visibility is present and below the 0.6 threshold are
rejected. -/
def visibleLm (o : Option RawLandmark) : Option RawLandmark :=
  match o with
  | none => none
  | some l =>
    match l.visibility with
    | some v => if v < 3/5 then none else some l
    | none => some l

/-- The six aspect-corrected points extracted by `getLandmarks`. -/
structure SidePoints where
  shoulder : Point2
  elbow : Point2
  wrist : Point2
  hip : Point2
  knee : Point2
  ankle : Point2
  deriving DecidableEq

/-- Aspect-ratio correction `{x: lm.x * aspectRatio, y: lm.y}`: the
horizontal coordinate is pre-multiplied by the aspect ratio, the vertical
coordinate is unchanged. -/
def correctLm (aspect : ℚ) (l : RawLandmark) : Point2 := ⟨l.x * aspect, l.y⟩

/-- `getLandmarks` from `angles.js`: extract the six side landmarks,
failing (returning `none`, the JS `null`) as soon as any of them is
absent or below the visibility threshold, and otherwise returning all six
aspect-corrected points. -/
def getLandmarks (all : List (Option RawLandmark)) (side : Side) (aspect : ℚ) :
    Option SidePoints :=
  match visibleLm (lookupLm all (SIDE_LANDMARKS side).shoulder),
      visibleLm (lookupLm all (SIDE_LANDMARKS side).elbow),
      visibleLm (lookupLm all (SIDE_LANDMARKS side).wrist),
      visibleLm (lookupLm all (SIDE_LANDMARKS side).hip),
      visibleLm (lookupLm all (SIDE_LANDMARKS side).knee),
      visibleLm (lookupLm all (SIDE_LANDMARKS side).ankle) with
  | some s, some e, some w, some h, some k, some a =>
    some ⟨correctLm aspect s, correctLm aspect e, correctLm aspect w,
      correctLm aspect h, correctLm aspect k, correctLm aspect a⟩
  | _, _, _, _, _, _ => none

/-- The six raw landmarks of a side, before aspect correction. -/
structure SideRaw where
  shoulder : RawLandmark
  elbow : RawLandmark
  wrist : RawLandmark
  hip : RawLandmark
  knee : RawLandmark
  ankle : RawLandmark
  deriving DecidableEq

/-- The fetch-and-gate part of the landmark-extraction contract, stated
from the spec: all six required side landmarks, provided each is present
and passes the 0.6 visibility gate. -/
def requiredLandmarks (all : List (Option RawLandmark)) (side : Side) :
    Option SideRaw :=
  match visibleLm (lookupLm all (SIDE_LANDMARKS side).shoulder),
      visibleLm (lookupLm all (SIDE_LANDMARKS side).elbow),
      visibleLm (lookupLm all (SIDE_LANDMARKS side).wrist),
      visibleLm (lookupLm all (SIDE_LANDMARKS side).hip),
      visibleLm (lookupLm all (SIDE_LANDMARKS side).knee),
      visibleLm (lookupLm all (SIDE_LANDMARKS side).ankle) with
  | some s, some e, some w, some h, some k, some a => some ⟨s, e, w, h, k, a⟩
  | _, _, _, _, _, _ => none

/-- Aspect correction applied to all six raw landmarks. -/
def toSidePoints (aspect : ℚ) (raw : SideRaw) : SidePoints :=
  ⟨correctLm aspect raw.shoulder, correctLm aspect raw.elbow, correctLm aspect raw.wrist,
    correctLm aspect raw.hip, correctLm aspect raw.knee, correctLm aspect raw.ankle⟩

/-- `angleDeg` from `angles.js`: the unsigned angle at vertex `b` via
`atan2(|cross|, dot) * 180 / PI` (`atan2(y, x)` is the argument of the
complex number `x + y i`). -/
noncomputable def angleDeg (a b c : Point2) : ℝ :=
  let v1x := a.x - b.x
  let v1y := a.y - b.y
  let v2x := c.x - b.x
  let v2y := c.y - b.y
  let dot := v1x * v2x + v1y * v2y
  let cross := v1x * v2y - v1y * v2x
  Complex.arg ⟨(dot : ℝ), |(cross : ℝ)|⟩ * 180 / Real.pi

/-- `angleFromHorizontal` from `angles.js`:
`atan2(|dy|, |dx|) * 180 / PI`. -/
noncomputable def angleFromHorizontal (a b : Point2) : ℝ :=
  let dx := b.x - a.x
  let dy := b.y - a.y
  Complex.arg ⟨|(dx : ℝ)|, |(dy : ℝ)|⟩ * 180 / Real.pi

/-- A full set of the four bike-fit angles, in degrees over the reals
(the source computes them with floating-point trigonometry). -/
structure AngleSetR where
  knee : ℝ
  hip : ℝ
  torso : ℝ
  elbow : ℝ

/-- `computeAngles` from `angles.js`: `null` when landmark extraction
fails, otherwise all four angles. -/
noncomputable def computeAngles (all : List (Option RawLandmark)) (side : Side)
    (aspect : ℚ) : Option AngleSetR :=
  match getLandmarks all side aspect with
  | none => none
  | some lm =>
    some { knee := angleDeg lm.hip lm.knee lm.ankle,
           hip := angleDeg lm.shoulder lm.hip lm.knee,
           torso := angleFromHorizontal lm.hip lm.shoulder,
           elbow := angleDeg lm.shoulder lm.elbow lm.wrist }

/-- Landmark `i` of the array is absent, or carries a visibility
confidence below the fixed 0.6 threshold. -/
def missingOrLowVis (all : List (Option RawLandmark)) (i : ℕ) : Prop :=
  lookupLm all i = none ∨
    ∃ l v, lookupLm all i = some l ∧ l.visibility = some v ∧ v < 3/5

lemma visibleLm_eq_none_iff (o : Option RawLandmark) :
    visibleLm o = none ↔
      o = none ∨ ∃ l v, o = some l ∧ l.visibility = some v ∧ v < 3/5 := by
  cases o with
  | none => simp [visibleLm]
  | some l =>
    cases hv : l.visibility with
    | none => simp [visibleLm, hv]
    | some v => by_cases h : v < 3/5 <;> simp [visibleLm, hv, h]

lemma getLandmarks_eq (all : List (Option RawLandmark)) (side : Side) (aspect : ℚ) :
    getLandmarks all side aspect =
      (requiredLandmarks all side).map (toSidePoints aspect) := by
  unfold getLandmarks requiredLandmarks
  cases visibleLm (lookupLm all (SIDE_LANDMARKS side).shoulder) <;>
    cases visibleLm (lookupLm all (SIDE_LANDMARKS side).elbow) <;>
    cases visibleLm (lookupLm all (SIDE_LANDMARKS side).wrist) <;>
    cases visibleLm (lookupLm all (SIDE_LANDMARKS side).hip) <;>
    cases visibleLm (lookupLm all (SIDE_LANDMARKS side).knee) <;>
    cases visibleLm (lookupLm all (SIDE_LANDMARKS side).ankle) <;>
    rfl

lemma requiredLandmarks_eq_none_iff (all : List (Option RawLandmark)) (side : Side) :
    requiredLandmarks all side = none ↔
      visibleLm (lookupLm all (SIDE_LANDMARKS side).shoulder) = none ∨
      visibleLm (lookupLm all (SIDE_LANDMARKS side).elbow) = none ∨
      visibleLm (lookupLm all (SIDE_LANDMARKS side).wrist) = none ∨
      visibleLm (lookupLm all (SIDE_LANDMARKS side).hip) = none ∨
      visibleLm (lookupLm all (SIDE_LANDMARKS side).knee) = none ∨
      visibleLm (lookupLm all (SIDE_LANDMARKS side).ankle) = none := by
  unfold requiredLandmarks
  cases visibleLm (lookupLm all (SIDE_LANDMARKS side).shoulder) <;>
    cases visibleLm (lookupLm all (SIDE_LANDMARKS side).elbow) <;>
    cases visibleLm (lookupLm all (SIDE_LANDMARKS side).wrist) <;>
    cases visibleLm (lookupLm all (SIDE_LANDMARKS side).hip) <;>
    cases visibleLm (lookupLm all (SIDE_LANDMARKS side).knee) <;>
    cases visibleLm (lookupLm all (SIDE_LANDMARKS side).ankle) <;>
    simp

/-- C8: for every landmark array, side and aspect ratio, `computeAngles`
returns `none` exactly when one of the six required side landmarks is
absent or has visibility confidence below 0.6; otherwise it returns the
complete four-angle set, computed from the landmarks with the horizontal
coordinate pre-multiplied by the aspect ratio and the vertical coordinate
unchanged — a partial angle set is never returned. -/
theorem computeAngles_all_or_nothing (all : List (Option RawLandmark)) (side : Side)
    (aspect : ℚ) :
    (computeAngles all side aspect = none ↔
      missingOrLowVis all (SIDE_LANDMARKS side).shoulder ∨
      missingOrLowVis all (SIDE_LANDMARKS side).elbow ∨
      missingOrLowVis all (SIDE_LANDMARKS side).wrist ∨
      missingOrLowVis all (SIDE_LANDMARKS side).hip ∨
      missingOrLowVis all (SIDE_LANDMARKS side).knee ∨
      missingOrLowVis all (SIDE_LANDMARKS side).ankle) ∧
    (∀ raw : SideRaw, requiredLandmarks all side = some raw →
      computeAngles all side aspect = some
        { knee := angleDeg (correctLm aspect raw.hip) (correctLm aspect raw.knee)
            (correctLm aspect raw.ankle),
          hip := angleDeg (correctLm aspect raw.shoulder) (correctLm aspect raw.hip)
            (correctLm aspect raw.knee),
          torso := angleFromHorizontal (correctLm aspect raw.hip)
            (correctLm aspect raw.shoulder),
          elbow := angleDeg (correctLm aspect raw.shoulder) (correctLm aspect raw.elbow)
            (correctLm aspect raw.wrist) }) := by
  constructor
  · have hnone : computeAngles all side aspect = none ↔
        requiredLandmarks all side = none := by
      unfold computeAngles
      rw [getLandmarks_eq]
      cases requiredLandmarks all side <;> simp
    rw [hnone, requiredLandmarks_eq_none_iff]
    simp only [visibleLm_eq_none_iff]
    rfl
  · intro raw hraw
    unfold computeAngles
    rw [getLandmarks_eq, hraw]
    rfl

/-- C8, witness: a concrete landmark array with all six left-side
landmarks present and visible yields the full corrected angle set. -/
def exLandmarks : List (Option RawLandmark) :=
  [none, none, none, none, none, none, none, none, none, none, none,
   some ⟨1/2, 1/4, some (9/10)⟩,
   none,
   some ⟨3/5, 2/5, some (9/10)⟩,
   none,
   some ⟨7/10, 1/2, some (9/10)⟩,
   none, none, none, none, none, none, none,
   some ⟨2/5, 3/5, some (9/10)⟩,
   none,
   some ⟨1/2, 4/5, some (9/10)⟩,
   none,
   some ⟨3/5, 9/10, none⟩]

/-- The six raw left-side landmarks of `exLandmarks`. -/
def exRaw : SideRaw :=
  ⟨⟨1/2, 1/4, some (9/10)⟩, ⟨3/5, 2/5, some (9/10)⟩, ⟨7/10, 1/2, some (9/10)⟩,
    ⟨2/5, 3/5, some (9/10)⟩, ⟨1/2, 4/5, some (9/10)⟩, ⟨3/5, 9/10, none⟩⟩

/-- C8, witness theorem: the gate admits the concrete array and
`computeAngles` yields the complete aspect-corrected angle set on it. -/
theorem computeAngles_all_or_nothing_witness :
    requiredLandmarks exLandmarks Side.left = some exRaw ∧
    computeAngles exLandmarks Side.left (16/9) = some
      { knee := angleDeg (correctLm (16/9) exRaw.hip) (correctLm (16/9) exRaw.knee)
          (correctLm (16/9) exRaw.ankle),
        hip := angleDeg (correctLm (16/9) exRaw.shoulder) (correctLm (16/9) exRaw.hip)
          (correctLm (16/9) exRaw.knee),
        torso := angleFromHorizontal (correctLm (16/9) exRaw.hip)
          (correctLm (16/9) exRaw.shoulder),
        elbow := angleDeg (correctLm (16/9) exRaw.shoulder) (correctLm (16/9) exRaw.elbow)
          (correctLm (16/9) exRaw.wrist) } :=
  ⟨by decide,
    (computeAngles_all_or_nothing exLandmarks Side.left (16/9)).2 exRaw (by decide)⟩

/-- One buffered position observation `{t, y}` (knee Y position). -/
structure Sample where
  t : ℚ
  y : ℚ
  deriving DecidableEq

/-- `samples[i]` for an index known to be in range (`{t := 0, y := 0}` in
the unused out-of-range case). -/
def getQ (l : List Sample) (i : ℕ) : Sample := (l.get? i).getD ⟨0, 0⟩

/-- `_smoothY` from `cadence.js`: the average of the sample and its
neighbors within radius 2, clamped to the array bounds. -/
def smoothYAt (l : List Sample) (idx : ℕ) : ℚ :=
  let lo := idx - 2
  let hi := min (l.length - 1) (idx + 2)
  let idxs := List.range' lo (hi + 1 - lo)
  sumQ (idxs.map (fun i => (getQ l i).y)) / idxs.length

/-- The mean Y of the whole sample window (`avgY` in `_detectPeaks`). -/
def meanY (l : List Sample) : ℚ := sumQ (l.map Sample.y) / l.length

/-- The candidate at `idx` is a peak: its smoothed value strictly exceeds
the smoothed value at each of the 10 surrounding offsets
`idx - 5 .. idx + 5` (`lookback = 5`). -/
def isPeakAt (l : List Sample) (idx : ℕ) : Bool :=
  (List.range 11).all (fun k =>
    k == 5 || decide (smoothYAt l (idx - 5 + k) < smoothYAt l idx))

/-- The candidate at `idx` is a trough: strictly below all 10 smoothed
neighbors. -/
def isTroughAt (l : List Sample) (idx : ℕ) : Bool :=
  (List.range 11).all (fun k =>
    k == 5 || decide (smoothYAt l idx < smoothYAt l (idx - 5 + k)))

/-- The duplicate-suppression guard
`!lastPeak || candidate.t - lastPeak > 300`: accepted when the history is
empty, when the last entry is the (falsy) timestamp `0`, or when the
candidate is more than 300 ms after the last entry. -/
def gapOk (history : List ℚ) (t : ℚ) : Bool :=
  match history.getLast? with
  | none => true
  | some lp => decide (lp = 0) || decide (300 < t - lp)

/-- `peaks[peaks.length - 2]`: the previous peak. -/
def prevPeakOf (peaks : List ℚ) : ℚ := peaks.getD (peaks.length - 2) 0

/-- `_checkSteady` from `cadence.js`: at least
`MIN_CYCLES_FOR_STEADY + 1 = 4` peaks are required; the periods between
the most recent 4 peaks must all deviate from their average by strictly
less than `MAX_PERIOD_VARIATION = 25%`. -/
def checkSteady (peaks : List ℚ) : Bool :=
  if peaks.length < 4 then false
  else
    let recent := peaks.drop (peaks.length - 4)
    let periods := List.zipWith (fun a b => b - a) recent (recent.drop 1)
    let avgPeriod := qAvg periods
    let maxVariation := listMax (periods.map (fun p => |p - avgPeriod| / avgPeriod))
    decide (maxVariation < 1/4)

/-- The summary object built in `_checkCycleComplete`. -/
def mkSummary (n : ℕ) (pt : ℚ) (r : ℤ) (cycleAngles : List AngleSet) : CycleSummary :=
  { cycleNumber := n, timestamp := pt, rpm := r,
    kneeMax := listMax (cycleAngles.map AngleSet.knee),
    hipMin := listMin (cycleAngles.map AngleSet.hip),
    torsoAvg := qAvg (cycleAngles.map AngleSet.torso),
    elbowAvg := qAvg (cycleAngles.map AngleSet.elbow) }

/-- The mutable state of a `CadenceDetector` instance. -/
structure CadenceState where
  samples : List Sample
  peaks : List ℚ
  troughs : List ℚ
  isSteady : Bool
  lastCycleTime : ℚ
  cycleCount : ℕ
  currentCycleAngles : List AngleSet
  deriving DecidableEq

/-- The state installed by `reset()` (and the constructor). -/
def initState : CadenceState :=
  { samples := [], peaks := [], troughs := [], isSteady := false,
    lastCycleTime := 0, cycleCount := 0, currentCycleAngles := [] }

/-- `hasStopped` from `cadence.js`: false while `lastCycleTime` is still
the initial `0`, and otherwise true iff strictly more than
`STOP_TIMEOUT_MS = 2000` ms have elapsed since the last accepted
cycle. -/
def hasStopped (s : CadenceState) (timestamp : ℚ) : Bool :=
  if s.lastCycleTime = 0 then false
  else decide (2000 < timestamp - s.lastCycleTime)

/-- `_checkCycleComplete` from `cadence.js`, as a function of the state
(whose `peaks` already contain the new peak) and the new peak time.
Returns the updated state together with the emitted summary, if any. -/
def checkCycleComplete (s : CadenceState) (peakTime : ℚ) :
    CadenceState × Option CycleSummary :=
  if s.peaks.length < 2 then (s, none)
  else
    let period := peakTime - prevPeakOf s.peaks
    let rpm := 60000 / period
    if rpm < 40 ∨ 120 < rpm then (s, none)
    else
      let cycleAngles := s.currentCycleAngles
      let out : Option CycleSummary :=
        if cycleAngles.length = 0 then none
        else some (mkSummary (s.cycleCount + 1) peakTime (jsRound rpm) cycleAngles)
      ({ s with
          cycleCount := s.cycleCount + 1, lastCycleTime := peakTime,
          currentCycleAngles := [], isSteady := checkSteady s.peaks }, out)

/-- `_detectPeaks` from `cadence.js`: examine the candidate 5 positions
behind the newest sample; on an accepted peak push it and run
`_checkCycleComplete`; on an accepted trough push it; finally evict peaks
and troughs older than `timestamp - 2 * WINDOW_DURATION_MS`. -/
def detectPeaks (s : CadenceState) (timestamp : ℚ) :
    CadenceState × Option CycleSummary :=
  if s.samples.length < 11 then (s, none)
  else
    let idx := s.samples.length - 6
    let candidate := getQ s.samples idx
    let prominence := |smoothYAt s.samples idx - meanY s.samples|
    let step1 : CadenceState × Option CycleSummary :=
      if isPeakAt s.samples idx && decide ((1 : ℚ)/100 < prominence) &&
          gapOk s.peaks candidate.t then
        checkCycleComplete { s with peaks := s.peaks ++ [candidate.t] } candidate.t
      else (s, none)
    let s2 : CadenceState :=
      if isTroughAt s.samples idx && decide ((1 : ℚ)/100 < prominence) &&
          gapOk step1.1.troughs candidate.t then
        { step1.1 with troughs := step1.1.troughs ++ [candidate.t] }
      else step1.1
    ({ s2 with
        peaks := s2.peaks.dropWhile (fun p => decide (p < timestamp - 8000)),
        troughs := s2.troughs.dropWhile (fun p => decide (p < timestamp - 8000)) },
      step1.2)

/-- `addSample` from `cadence.js`: push the sample, accumulate the angle
snapshot if present, evict samples older than `WINDOW_DURATION_MS = 4000`
ms, and run peak detection once at least 10 samples are buffered. -/
def addSample (s : CadenceState) (timestamp y : ℚ) (angles : Option AngleSet) :
    CadenceState × Option CycleSummary :=
  let s1 : CadenceState :=
    { s with
      samples := (s.samples ++ [Sample.mk timestamp y]).dropWhile
        (fun sm => decide (sm.t < timestamp - 4000)),
      currentCycleAngles := s.currentCycleAngles ++ angles.toList }
  if s1.samples.length < 10 then (s1, none) else detectPeaks s1 timestamp

/-- One frame of input to the engine: timestamp, knee Y position, and the
optional angle snapshot. -/
structure FrameInput where
  t : ℚ
  y : ℚ
  angles : Option AngleSet
  deriving DecidableEq

/-- Run the engine from a given state over a list of frames, collecting
the emitted cycle summaries in order. -/
def runFrom (s : CadenceState) : List FrameInput → CadenceState × List CycleSummary
  | [] => (s, [])
  | inp :: rest =>
    let q := addSample s inp.t inp.y inp.angles
    let r := runFrom q.1 rest
    (r.1, q.2.toList ++ r.2)

/-- Run the engine from the reset state. -/
def runDetector (inputs : List FrameInput) : CadenceState × List CycleSummary :=
  runFrom initState inputs

/-- The 3 periods between consecutive entries of a peak-time list. -/
def periodsBetween (l : List ℚ) : List ℚ :=
  List.zipWith (fun a b => b - a) l (l.drop 1)

/-- The most recent 4 entries of a peak-time list. -/
def lastFour (l : List ℚ) : List ℚ := l.drop (l.length - 4)

/-- The maximum relative deviation of a list of periods from their
average. -/
def maxRelDev (periods : List ℚ) : ℚ :=
  listMax (periods.map (fun p => |p - qAvg periods| / qAvg periods))

lemma checkCycleComplete_def (s : CadenceState) (pt : ℚ) :
    checkCycleComplete s pt =
      if s.peaks.length < 2 then (s, none)
      else if 60000 / (pt - prevPeakOf s.peaks) < 40 ∨
          120 < 60000 / (pt - prevPeakOf s.peaks) then (s, none)
      else
        ({ s with
            cycleCount := s.cycleCount + 1, lastCycleTime := pt,
            currentCycleAngles := [], isSteady := checkSteady s.peaks },
          if s.currentCycleAngles.length = 0 then none
          else some (mkSummary (s.cycleCount + 1) pt
            (jsRound (60000 / (pt - prevPeakOf s.peaks))) s.currentCycleAngles)) :=
  rfl

lemma checkSteady_iff (peaks : List ℚ) :
    checkSteady peaks = true ↔
      4 ≤ peaks.length ∧ maxRelDev (periodsBetween (lastFour peaks)) < 1/4 := by
  unfold checkSteady maxRelDev periodsBetween lastFour
  by_cases h : peaks.length < 4
  · simp [h]
  · simp [h, (not_lt.mp h : 4 ≤ peaks.length)]

/-- C2: when a new peak (already pushed onto the peak history) closes a
period whose derived cadence `60000 / period` falls outside `[40, 120]`
RPM, `_checkCycleComplete` discards the cycle entirely: no summary is
emitted and the state — in particular the cycle counter, the last-cycle
time, the steadiness flag and the per-cycle angle buffer — is returned
unchanged. -/
theorem out_of_band_period_discarded (s : CadenceState) (peakTime : ℚ)
    (h2 : 2 ≤ s.peaks.length)
    (hout : 60000 / (peakTime - prevPeakOf s.peaks) < 40 ∨
      120 < 60000 / (peakTime - prevPeakOf s.peaks)) :
    checkCycleComplete s peakTime = (s, none) := by
  rw [checkCycleComplete_def, if_neg (by omega), if_pos hout]

/-- C2, witness: a peak 100 ms after the previous one (600 RPM) is
discarded with the state unchanged. -/
def exState2 : CadenceState := { initState with peaks := [2000, 2100] }

/-- C2, witness theorem. -/
theorem out_of_band_period_discarded_witness :
    2 ≤ exState2.peaks.length ∧
    (60000 / ((2100 : ℚ) - prevPeakOf exState2.peaks) < 40 ∨
      120 < 60000 / ((2100 : ℚ) - prevPeakOf exState2.peaks)) ∧
    checkCycleComplete exState2 2100 = (exState2, none) :=
  ⟨by decide, by decide,
    out_of_band_period_discarded exState2 2100 (by decide) (by decide)⟩

/-- C5: after every accepted cycle (a period whose cadence is in band),
the steadiness flag equals exactly the spec predicate: it is true iff at
least 4 peaks are in history and the maximum relative deviation of the 3
periods between the most recent 4 peaks from their average is strictly
below 25%. -/
theorem steadiness_recompute (s : CadenceState) (peakTime : ℚ)
    (h2 : 2 ≤ s.peaks.length)
    (hin : ¬(60000 / (peakTime - prevPeakOf s.peaks) < 40 ∨
      120 < 60000 / (peakTime - prevPeakOf s.peaks))) :
    ((checkCycleComplete s peakTime).1.isSteady = true ↔
      4 ≤ s.peaks.length ∧ maxRelDev (periodsBetween (lastFour s.peaks)) < 1/4) := by
  rw [checkCycleComplete_def, if_neg (by omega), if_neg hin]
  exact checkSteady_iff s.peaks

/-- C5, witness: four perfectly even peaks in history make the detector
steady after the accepted cycle. -/
def exState5 : CadenceState := { initState with peaks := [500, 1500, 2500, 3500] }

lemma getQ_mem (l : List Sample) (i : ℕ) (h : i < l.length) : getQ l i ∈ l := by
  unfold getQ
  rw [List.get?_eq_get h]
  simp

lemma step1_shape (s : CadenceState) (ct : ℚ) :
    ((checkCycleComplete { s with peaks := s.peaks ++ [ct] } ct).1 =
        { s with peaks := s.peaks ++ [ct] } ∧
      (checkCycleComplete { s with peaks := s.peaks ++ [ct] } ct).2 = none) ∨
    ((checkCycleComplete { s with peaks := s.peaks ++ [ct] } ct).1 =
        { s with
          peaks := s.peaks ++ [ct], cycleCount := s.cycleCount + 1,
          lastCycleTime := ct, currentCycleAngles := [],
          isSteady := checkSteady (s.peaks ++ [ct]) } ∧
      (checkCycleComplete { s with peaks := s.peaks ++ [ct] } ct).2 =
        (if s.currentCycleAngles.length = 0 then none
         else some (mkSummary (s.cycleCount + 1) ct
           (jsRound (60000 / (ct - prevPeakOf (s.peaks ++ [ct]))))
           s.currentCycleAngles))) := by
  rw [checkCycleComplete_def]
  dsimp only
  by_cases h1 : (s.peaks ++ [ct]).length < 2
  · rw [if_pos h1]
    exact Or.inl ⟨rfl, rfl⟩
  · rw [if_neg h1]
    by_cases h2 : 60000 / (ct - prevPeakOf (s.peaks ++ [ct])) < 40 ∨
        120 < 60000 / (ct - prevPeakOf (s.peaks ++ [ct]))
    · rw [if_pos h2]
      exact Or.inl ⟨rfl, rfl⟩
    · rw [if_neg h2]
      exact Or.inr ⟨rfl, rfl⟩

lemma detectPeaks_shape (s : CadenceState) (ts : ℚ) :
    ((detectPeaks s ts).1.cycleCount = s.cycleCount ∧
      (detectPeaks s ts).2 = none ∧
      (detectPeaks s ts).1.currentCycleAngles = s.currentCycleAngles ∧
      (detectPeaks s ts).1.lastCycleTime = s.lastCycleTime ∧
      (detectPeaks s ts).1.isSteady = s.isSteady ∧
      (detectPeaks s ts).1.samples = s.samples) ∨
    ((detectPeaks s ts).1.cycleCount = s.cycleCount + 1 ∧
      (detectPeaks s ts).1.currentCycleAngles = [] ∧
      (detectPeaks s ts).1.lastCycleTime ∈ s.samples.map Sample.t ∧
      (detectPeaks s ts).1.samples = s.samples ∧
      ∃ r : ℤ, (detectPeaks s ts).2 =
        (if s.currentCycleAngles.length = 0 then none
         else some (mkSummary (s.cycleCount + 1) (detectPeaks s ts).1.lastCycleTime r
           s.currentCycleAngles))) := by
  unfold detectPeaks
  by_cases h11 : s.samples.length < 11
  · rw [if_pos h11]
    left
    exact ⟨rfl, rfl, rfl, rfl, rfl, rfl⟩
  · rw [if_neg h11]
    dsimp only
    by_cases hpk : (isPeakAt s.samples (s.samples.length - 6) &&
        decide ((1 : ℚ)/100 <
          |smoothYAt s.samples (s.samples.length - 6) - meanY s.samples|) &&
        gapOk s.peaks (getQ s.samples (s.samples.length - 6)).t) = true
    · rw [if_pos hpk]
      rcases step1_shape s (getQ s.samples (s.samples.length - 6)).t with
        ⟨h1, h2⟩ | ⟨h1, h2⟩
      · left
        rw [h1, h2]
        refine ⟨?_, rfl, ?_, ?_, ?_, ?_⟩ <;>
          simp [apply_ite CadenceState.cycleCount,
            apply_ite CadenceState.currentCycleAngles,
            apply_ite CadenceState.lastCycleTime,
            apply_ite CadenceState.isSteady,
            apply_ite CadenceState.samples]
      · right
        rw [h1, h2]
        have hmem : (getQ s.samples (s.samples.length - 6)).t ∈
            s.samples.map Sample.t :=
          List.mem_map.mpr ⟨getQ s.samples (s.samples.length - 6),
            getQ_mem s.samples (s.samples.length - 6) (by omega), rfl⟩
        simp only [apply_ite CadenceState.cycleCount,
          apply_ite CadenceState.currentCycleAngles,
          apply_ite CadenceState.lastCycleTime,
          apply_ite CadenceState.isSteady,
          apply_ite CadenceState.samples, ite_self]
        refine ⟨?_, ?_, ?_, ?_,
          ⟨jsRound (60000 / ((getQ s.samples (s.samples.length - 6)).t -
            prevPeakOf (s.peaks ++ [(getQ s.samples (s.samples.length - 6)).t]))), ?_⟩⟩ <;>
          first | rfl | trivial | exact hmem
    · rw [if_neg hpk]
      left
      refine ⟨?_, rfl, ?_, ?_, ?_, ?_⟩ <;>
        simp [apply_ite CadenceState.cycleCount,
          apply_ite CadenceState.currentCycleAngles,
          apply_ite CadenceState.lastCycleTime,
          apply_ite CadenceState.isSteady,
          apply_ite CadenceState.samples]

/-- C5, witness theorem. -/
theorem steadiness_recompute_witness :
    2 ≤ exState5.peaks.length ∧
    ¬(60000 / ((3500 : ℚ) - prevPeakOf exState5.peaks) < 40 ∨
      120 < 60000 / ((3500 : ℚ) - prevPeakOf exState5.peaks)) ∧
    ((checkCycleComplete exState5 3500).1.isSteady = true ↔
      4 ≤ exState5.peaks.length ∧
        maxRelDev (periodsBetween (lastFour exState5.peaks)) < 1/4) :=
  ⟨by decide, by decide,
    steadiness_recompute exState5 3500 (by decide) (by decide)⟩

lemma addSample_shape (s : CadenceState) (t y : ℚ) (ang : Option AngleSet) :
    ((addSample s t y ang).1.cycleCount = s.cycleCount ∧
      (addSample s t y ang).2 = none ∧
      (addSample s t y ang).1.currentCycleAngles =
        s.currentCycleAngles ++ ang.toList ∧
      (addSample s t y ang).1.lastCycleTime = s.lastCycleTime ∧
      (addSample s t y ang).1.isSteady = s.isSteady) ∨
    ((addSample s t y ang).1.cycleCount = s.cycleCount + 1 ∧
      (addSample s t y ang).1.currentCycleAngles = [] ∧
      (addSample s t y ang).1.lastCycleTime ∈
        (addSample s t y ang).1.samples.map Sample.t ∧
      ∃ r : ℤ, (addSample s t y ang).2 =
        (if (s.currentCycleAngles ++ ang.toList).length = 0 then none
         else some (mkSummary (s.cycleCount + 1) (addSample s t y ang).1.lastCycleTime r
           (s.currentCycleAngles ++ ang.toList)))) := by
  unfold addSample
  dsimp only
  by_cases hlen : ((s.samples ++ [Sample.mk t y]).dropWhile
      (fun sm => decide (sm.t < t - 4000))).length < 10
  · rw [if_pos hlen]
    left
    exact ⟨rfl, rfl, rfl, rfl, rfl⟩
  · rw [if_neg hlen]
    rcases detectPeaks_shape
        { s with
          samples := (s.samples ++ [Sample.mk t y]).dropWhile
            (fun sm => decide (sm.t < t - 4000)),
          currentCycleAngles := s.currentCycleAngles ++ ang.toList } t with
      ⟨c1, c2, c3, c4, c5, _⟩ | ⟨c1, c2, c3, c4, c5⟩
    · left
      exact ⟨c1, c2, c3, c4, c5⟩
    · right
      refine ⟨c1, c2, ?_, ?_⟩
      · rw [← c4] at c3
        exact c3
      · exact c5

lemma addSample_samples_eq (s : CadenceState) (t y : ℚ) (ang : Option AngleSet) :
    (addSample s t y ang).1.samples =
      (s.samples ++ [Sample.mk t y]).dropWhile (fun sm => decide (sm.t < t - 4000)) := by
  unfold addSample
  dsimp only
  by_cases hlen : ((s.samples ++ [Sample.mk t y]).dropWhile
      (fun sm => decide (sm.t < t - 4000))).length < 10
  · rw [if_pos hlen]
  · rw [if_neg hlen]
    rcases detectPeaks_shape
        { s with
          samples := (s.samples ++ [Sample.mk t y]).dropWhile
            (fun sm => decide (sm.t < t - 4000)),
          currentCycleAngles := s.currentCycleAngles ++ ang.toList } t with
      ⟨_, _, _, _, _, c6⟩ | ⟨_, _, _, c4, _⟩
    · exact c6
    · exact c4

lemma addSample_count_mono (s : CadenceState) (t y : ℚ) (ang : Option AngleSet) :
    s.cycleCount ≤ (addSample s t y ang).1.cycleCount := by
  rcases addSample_shape s t y ang with ⟨c1, _⟩ | ⟨c1, _⟩ <;> omega

lemma addSample_emit_num (s : CadenceState) (t y : ℚ) (ang : Option AngleSet)
    (sum : CycleSummary) (h : (addSample s t y ang).2 = some sum) :
    sum.cycleNumber = s.cycleCount + 1 ∧
    (addSample s t y ang).1.cycleCount = s.cycleCount + 1 := by
  rcases addSample_shape s t y ang with ⟨_, c2, _⟩ | ⟨c1, _, _, r, hr⟩
  · rw [c2] at h
    simp at h
  · rw [hr] at h
    by_cases hb : (s.currentCycleAngles ++ ang.toList).length = 0
    · rw [if_pos hb] at h
      simp at h
    · rw [if_neg hb] at h
      have hsum := Option.some.inj h
      refine ⟨?_, c1⟩
      rw [← hsum]
      rfl

lemma runFrom_nil (s : CadenceState) : runFrom s [] = (s, []) := rfl

lemma runFrom_cons (s : CadenceState) (inp : FrameInput) (rest : List FrameInput) :
    runFrom s (inp :: rest) =
      ((runFrom (addSample s inp.t inp.y inp.angles).1 rest).1,
        (addSample s inp.t inp.y inp.angles).2.toList ++
          (runFrom (addSample s inp.t inp.y inp.angles).1 rest).2) := rfl

lemma runFrom_count_mono (inputs : List FrameInput) :
    ∀ s : CadenceState, s.cycleCount ≤ (runFrom s inputs).1.cycleCount := by
  induction inputs with
  | nil => intro s; rw [runFrom_nil]
  | cons inp rest ih =>
    intro s
    rw [runFrom_cons]
    exact le_trans (addSample_count_mono s inp.t inp.y inp.angles)
      (ih (addSample s inp.t inp.y inp.angles).1)

lemma runFrom_noacc (inputs : List FrameInput) :
    ∀ s : CadenceState, (runFrom s inputs).1.cycleCount = s.cycleCount →
      (runFrom s inputs).1.currentCycleAngles =
        s.currentCycleAngles ++ inputs.filterMap FrameInput.angles ∧
      (runFrom s inputs).2 = [] := by
  induction inputs with
  | nil =>
    intro s _
    rw [runFrom_nil]
    simp
  | cons inp rest ih =>
    intro s h
    rw [runFrom_cons] at h ⊢
    dsimp only at h ⊢
    have hmono1 := addSample_count_mono s inp.t inp.y inp.angles
    have hmono2 := runFrom_count_mono rest (addSample s inp.t inp.y inp.angles).1
    have hq : (addSample s inp.t inp.y inp.angles).1.cycleCount = s.cycleCount := by
      omega
    rcases addSample_shape s inp.t inp.y inp.angles with ⟨c1, c2, c3, _, _⟩ | ⟨c1, _⟩
    · obtain ⟨hbuf, hemit⟩ := ih (addSample s inp.t inp.y inp.angles).1 (by omega)
      refine ⟨?_, ?_⟩
      · rw [hbuf, c3]
        cases ha : inp.angles <;> simp [List.filterMap_cons, ha]
      · rw [hemit, c2]
        simp
    · exfalso
      omega

/-- C10: the per-cycle angle buffer is cleared only when a cycle is
accepted (it starts empty at reset): over any run segment in which no
cycle is accepted, the buffer accumulates exactly the non-null angle
snapshots supplied to `addSample`, in order, regardless of intervening
peaks or rejected periods, and no summary is emitted; and when a call to
`addSample` does emit a summary, the cycle counter has just been
incremented, the buffer is cleared, and the summary aggregates exactly
the buffer contents before the call together with the current frame's
angle snapshot — i.e. every non-null angle sample supplied since the
previous accepted cycle (or since reset). -/
theorem angle_buffer_invariant :
    (∀ (s : CadenceState) (inputs : List FrameInput),
      (runFrom s inputs).1.cycleCount = s.cycleCount →
      (runFrom s inputs).1.currentCycleAngles =
        s.currentCycleAngles ++ inputs.filterMap FrameInput.angles ∧
      (runFrom s inputs).2 = []) ∧
    (∀ (s : CadenceState) (t y : ℚ) (ang : Option AngleSet) (sum : CycleSummary),
      (addSample s t y ang).2 = some sum →
      (addSample s t y ang).1.cycleCount = s.cycleCount + 1 ∧
      (addSample s t y ang).1.currentCycleAngles = [] ∧
      s.currentCycleAngles ++ ang.toList ≠ [] ∧
      sum = mkSummary (s.cycleCount + 1) (addSample s t y ang).1.lastCycleTime sum.rpm
        (s.currentCycleAngles ++ ang.toList)) := by
  refine ⟨fun s inputs h => runFrom_noacc inputs s h, ?_⟩
  intro s t y ang sum h
  rcases addSample_shape s t y ang with ⟨_, c2, _⟩ | ⟨c1, c2, _, r, hr⟩
  · rw [c2] at h
    simp at h
  · rw [hr] at h
    by_cases hb : (s.currentCycleAngles ++ ang.toList).length = 0
    · rw [if_pos hb] at h
      simp at h
    · rw [if_neg hb] at h
      have hsum := (Option.some.inj h).symm
      refine ⟨c1, c2, fun hc => hb (by rw [hc]; rfl), ?_⟩
      rw [hsum]
      rfl

/-- C10, witness: a single frame that completes no cycle appends its
angle snapshot to the buffer; and a frame that does complete a cycle
emits the summary aggregating the pre-call buffer plus the current
frame's snapshot. -/
def exAngle1 : AngleSet := ⟨150, 70, 40, 160⟩

/-- Second concrete angle snapshot. -/
def exAngle2 : AngleSet := ⟨140, 75, 45, 165⟩

/-- A state mid-ride: 10 buffered samples rising to a clear peak at
`t = 500` then falling, a previous peak at `t = -200`, and one angle
snapshot in the buffer.  The next sample completes an in-band cycle. -/
def exState10 : CadenceState :=
  { initState with
    samples := [⟨0, 0⟩, ⟨100, 0⟩, ⟨200, 1/10⟩, ⟨300, 3/10⟩, ⟨400, 2/5⟩,
      ⟨500, 1/2⟩, ⟨600, 2/5⟩, ⟨700, 3/10⟩, ⟨800, 1/10⟩, ⟨900, 0⟩],
    peaks := [-200],
    currentCycleAngles := [exAngle1] }

/-- The summary the witness frame emits. -/
def exSummary10 : CycleSummary := mkSummary 1 500 86 [exAngle1, exAngle2]

/-- C10, witness theorem. -/
theorem angle_buffer_invariant_witness :
    ((runFrom initState [⟨1, 1/2, some exAngle1⟩]).1.cycleCount = initState.cycleCount ∧
      (runFrom initState [⟨1, 1/2, some exAngle1⟩]).1.currentCycleAngles =
        initState.currentCycleAngles ++
          ([⟨1, 1/2, some exAngle1⟩] : List FrameInput).filterMap FrameInput.angles) ∧
    ((addSample exState10 1000 0 (some exAngle2)).2 = some exSummary10 ∧
      exSummary10 = mkSummary (exState10.cycleCount + 1)
        (addSample exState10 1000 0 (some exAngle2)).1.lastCycleTime exSummary10.rpm
        (exState10.currentCycleAngles ++ (some exAngle2).toList)) :=
  ⟨⟨by decide,
    (angle_buffer_invariant.1 initState [⟨1, 1/2, some exAngle1⟩] (by decide)).1⟩,
   ⟨by decide,
    (angle_buffer_invariant.2 exState10 1000 0 (some exAngle2) exSummary10
      (by decide)).2.2.2⟩⟩

/-- C3: a summary emitted by `_checkCycleComplete` carries the
incremented (1-based) cycle counter, the defining accepted peak's time as
its timestamp, the cadence `60000 / period` rounded to the nearest
integer, the maximum knee angle and minimum hip angle over the buffered
per-cycle samples, and the arithmetic means of torso and elbow; it is
emitted only when the angle buffer was non-empty, at most once per
accepted cycle (the return is a single optional summary); and across any
run from reset, the emitted cycle numbers are strictly increasing and at
least 1. -/
theorem cycle_summary_contract :
    (∀ (s : CadenceState) (pt : ℚ) (sum : CycleSummary),
      (checkCycleComplete s pt).2 = some sum →
      sum.cycleNumber = s.cycleCount + 1 ∧
      1 ≤ sum.cycleNumber ∧
      (checkCycleComplete s pt).1.cycleCount = s.cycleCount + 1 ∧
      sum.timestamp = pt ∧
      sum.rpm = jsRound (60000 / (pt - prevPeakOf s.peaks)) ∧
      sum.kneeMax = listMax (s.currentCycleAngles.map AngleSet.knee) ∧
      sum.hipMin = listMin (s.currentCycleAngles.map AngleSet.hip) ∧
      sum.torsoAvg = qAvg (s.currentCycleAngles.map AngleSet.torso) ∧
      sum.elbowAvg = qAvg (s.currentCycleAngles.map AngleSet.elbow) ∧
      s.currentCycleAngles ≠ []) ∧
    (∀ inputs : List FrameInput,
      List.Chain' (fun a b => a < b)
        (((runDetector inputs).2).map CycleSummary.cycleNumber) ∧
      ∀ sum ∈ (runDetector inputs).2, 1 ≤ sum.cycleNumber) := by
  constructor
  · intro s pt sum h
    rw [checkCycleComplete_def] at h
    by_cases h1 : s.peaks.length < 2
    · rw [if_pos h1] at h
      simp at h
    · rw [if_neg h1] at h
      by_cases h2 : 60000 / (pt - prevPeakOf s.peaks) < 40 ∨
          120 < 60000 / (pt - prevPeakOf s.peaks)
      · rw [if_pos h2] at h
        simp at h
      · rw [if_neg h2] at h
        dsimp only at h
        by_cases h3 : s.currentCycleAngles.length = 0
        · rw [if_pos h3] at h
          simp at h
        · rw [if_neg h3] at h
          have hsum := (Option.some.inj h).symm
          subst hsum
          refine ⟨rfl, by simp [mkSummary], ?_, rfl, rfl, rfl, rfl, rfl, rfl, ?_⟩
          · rw [checkCycleComplete_def, if_neg h1, if_neg h2]
          · intro hc
            exact h3 (by rw [hc]; rfl)
  · intro inputs
    have key : ∀ (l : List FrameInput) (s : CadenceState),
        List.Chain' (fun a b => a < b)
          (((runFrom s l).2).map CycleSummary.cycleNumber) ∧
        ∀ n ∈ ((runFrom s l).2).map CycleSummary.cycleNumber, s.cycleCount < n := by
      intro l
      induction l with
      | nil =>
        intro s
        rw [runFrom_nil]
        simp
      | cons inp rest ih =>
        intro s
        rw [runFrom_cons]
        dsimp only
        obtain ⟨ihc, ihb⟩ := ih (addSample s inp.t inp.y inp.angles).1
        cases hout : (addSample s inp.t inp.y inp.angles).2 with
        | none =>
          simp only [Option.toList, List.nil_append]
          refine ⟨ihc, fun n hn => ?_⟩
          exact lt_of_le_of_lt (addSample_count_mono s inp.t inp.y inp.angles) (ihb n hn)
        | some sum =>
          obtain ⟨hnum, hcount⟩ := addSample_emit_num s inp.t inp.y inp.angles sum hout
          simp only [Option.toList, List.singleton_append, List.map_cons]
          refine ⟨List.chain'_cons'.mpr ⟨?_, ihc⟩, ?_⟩
          · intro b hb
            have hb2 := ihb b (List.mem_of_mem_head? hb)
            omega
          · intro n hn
            rcases List.mem_cons.mp hn with hn1 | hn2
            · omega
            · have := ihb n hn2
              omega
    obtain ⟨hc, hb⟩ := key inputs initState
    refine ⟨hc, fun sum hs => ?_⟩
    have := hb sum.cycleNumber (List.mem_map_of_mem CycleSummary.cycleNumber hs)
    simpa [initState] using this

/-- C3, witness: a concrete accepted cycle with a one-snapshot buffer
emits a summary with all contract fields. -/
def exState3 : CadenceState :=
  { initState with peaks := [1000, 2000], currentCycleAngles := [exAngle1] }

/-- The summary emitted from `exState3` at peak time 2000. -/
def exSummary3 : CycleSummary := mkSummary 1 2000 60 [exAngle1]

/-- C3, witness theorem. -/
theorem cycle_summary_contract_witness :
    (checkCycleComplete exState3 2000).2 = some exSummary3 ∧
    exSummary3.cycleNumber = exState3.cycleCount + 1 ∧
    exSummary3.timestamp = 2000 ∧
    exSummary3.rpm = jsRound (60000 / (2000 - prevPeakOf exState3.peaks)) ∧
    exSummary3.kneeMax = listMax (exState3.currentCycleAngles.map AngleSet.knee) :=
  ⟨by decide,
    (cycle_summary_contract.1 exState3 2000 exSummary3 (by decide)).1,
    (cycle_summary_contract.1 exState3 2000 exSummary3 (by decide)).2.2.2.1,
    (cycle_summary_contract.1 exState3 2000 exSummary3 (by decide)).2.2.2.2.1,
    (cycle_summary_contract.1 exState3 2000 exSummary3 (by decide)).2.2.2.2.2.1⟩

lemma addSample_pos (s : CadenceState) (t y : ℚ) (ang : Option AngleSet)
    (hs : ∀ x ∈ s.samples, 0 < x.t) (ht : 0 < t) :
    ∀ x ∈ (addSample s t y ang).1.samples, 0 < x.t := by
  rw [addSample_samples_eq]
  intro x hx
  have hx2 : x ∈ s.samples ++ [Sample.mk t y] :=
    (List.dropWhile_sublist _).subset hx
  rcases List.mem_append.mp hx2 with hmem | hmem
  · exact hs x hmem
  · have : x = Sample.mk t y := by simpa using hmem
    rw [this]
    exact ht

/-- The reachability invariant behind the stopped predicate: all buffered
sample timestamps are positive, and the cycle counter is zero exactly
when the last-cycle time still holds its initial `0`. -/
def PosInv (s : CadenceState) : Prop :=
  (∀ x ∈ s.samples, 0 < x.t) ∧ (s.cycleCount = 0 ↔ s.lastCycleTime = 0)

lemma posInv_step (s : CadenceState) (t y : ℚ) (ang : Option AngleSet)
    (ht : 0 < t) (h : PosInv s) : PosInv (addSample s t y ang).1 := by
  obtain ⟨hs, hiff⟩ := h
  have hsamp := addSample_pos s t y ang hs ht
  refine ⟨hsamp, ?_⟩
  rcases addSample_shape s t y ang with ⟨c1, _, _, c4, _⟩ | ⟨c1, _, c3, _⟩
  · rw [c1, c4]
    exact hiff
  · have hlct : 0 < (addSample s t y ang).1.lastCycleTime := by
      obtain ⟨x, hx, hxe⟩ := List.mem_map.mp c3
      exact hxe ▸ hsamp x hx
    rw [c1]
    constructor
    · intro hc
      exact absurd hc (Nat.succ_ne_zero _)
    · intro hl
      rw [hl] at hlct
      exact absurd hlct (lt_irrefl 0)

lemma posInv_run (inputs : List FrameInput) :
    ∀ s : CadenceState, (∀ inp ∈ inputs, 0 < inp.t) → PosInv s →
      PosInv (runFrom s inputs).1 := by
  induction inputs with
  | nil =>
    intro s _ h
    rw [runFrom_nil]
    exact h
  | cons inp rest ih =>
    intro s hpos h
    rw [runFrom_cons]
    exact ih (addSample s inp.t inp.y inp.angles).1
      (fun x hx => hpos x (List.mem_cons_of_mem inp hx))
      (posInv_step s inp.t inp.y inp.angles (hpos inp (List.mem_cons_self inp rest)) h)

/-- C4: over any run from reset on positive timestamps, `hasStopped`
returns false for every query time while no cycle has been recorded;
once a cycle has been recorded it returns true exactly when strictly more
than 2000 ms have elapsed since the last accepted cycle's timestamp.  In
particular, for any state whose last cycle is at `t = 10000`,
`hasStopped 12001 = true` and `hasStopped 11999 = false`. -/
theorem hasStopped_spec :
    (∀ inputs : List FrameInput, (∀ inp ∈ inputs, 0 < inp.t) →
      ((runDetector inputs).1.cycleCount = 0 →
        ∀ t : ℚ, hasStopped (runDetector inputs).1 t = false) ∧
      ((runDetector inputs).1.cycleCount ≠ 0 →
        ∀ t : ℚ, (hasStopped (runDetector inputs).1 t = true ↔
          2000 < t - (runDetector inputs).1.lastCycleTime))) ∧
    (∀ s : CadenceState, s.lastCycleTime = 10000 →
      hasStopped s 12001 = true ∧ hasStopped s 11999 = false) := by
  constructor
  · intro inputs hpos
    have hinv := posInv_run inputs initState hpos ⟨by simp [initState], by simp [initState]⟩
    obtain ⟨_, hiff⟩ := hinv
    constructor
    · intro h0 t
      simp only [runDetector] at h0 ⊢
      unfold hasStopped
      rw [if_pos (hiff.mp h0)]
    · intro hne t
      simp only [runDetector] at hne ⊢
      unfold hasStopped
      rw [if_neg (fun hl => hne (hiff.mpr hl))]
      simp
  · intro s h
    constructor
    · simp only [hasStopped, h]
      decide
    · simp only [hasStopped, h]
      decide

/-- C4, witness: a single-frame run records no cycle and never reports
stopped, and the concrete `t = 10000` instances behave as claimed. -/
theorem hasStopped_spec_witness :
    (∀ inp ∈ ([⟨100, 1/2, none⟩] : List FrameInput), 0 < inp.t) ∧
    (runDetector [⟨100, 1/2, none⟩]).1.cycleCount = 0 ∧
    hasStopped (runDetector [⟨100, 1/2, none⟩]).1 5000 = false ∧
    ({ initState with lastCycleTime := 10000 } : CadenceState).lastCycleTime = 10000 ∧
    hasStopped { initState with lastCycleTime := 10000 } 12001 = true ∧
    hasStopped { initState with lastCycleTime := 10000 } 11999 = false :=
  ⟨by decide, by decide,
   (hasStopped_spec.1 [⟨100, 1/2, none⟩] (by decide)).1 (by decide) 5000,
   by decide,
   (hasStopped_spec.2 { initState with lastCycleTime := 10000 } (by decide)).1,
   (hasStopped_spec.2 { initState with lastCycleTime := 10000 } (by decide)).2⟩

end

end OpenBikeFit
